import Mathlib

/-!
Verification development for the pmps-ui repository.

We shallowly embed the two source modules:
  - tooltips.py: the eV-range bitmask summarizer (get_ev_range_tooltip),
    the beam-class bitmask table (get_tooltip_for_bc_bitmask), and the
    preformatted wrapper.
  - preemptive_requests.py: the PMPSTableWidgetItem value/connection
    update logic, the table population (setup_requests), and the row
    filter (update_filter / update_all_filters).

Python integers are modelled by Nat (bitmasks, pool counters) and Int
(eV boundaries, pool ids, table values); Python floats in the filter
comparisons by Rat; Python strings by String; a raised Python exception
by Except.
-/

/-! ## tooltips.py -/

/-- `preformatted(text)`: wrap in a rich-text pre block. -/
def preformatted (text : String) : String :=
  "<pre>" ++ text ++ "</pre>"

/-- The loop state of `get_ev_range_tooltip`: the finished interval
lists, the currently open interval of either classification, and the
previous boundary (`prev`, initially 0). -/
structure EvState where
  ok_bounds : List (Int × Int)
  bad_bounds : List (Int × Int)
  curr_ok : Option (Int × Int)
  curr_bad : Option (Int × Int)
  prev : Int
deriving Repr, DecidableEq

def initEvState : EvState := ⟨[], [], none, none, 0⟩

/-- One iteration of the `for bit, ev in enumerate(range_def)` loop of
`get_ev_range_tooltip`, given the already-extracted bit value
`ok = (bitmask >> bit) % 2`. -/
def evStep (ok : Nat) (ev : Int) (s : EvState) : EvState :=
  if ok ≠ 0 then
    let curr_ok := match s.curr_ok with
      | none => some (s.prev, ev)
      | some b => some (b.1, ev)
    match s.curr_bad with
    | some cb =>
        { s with curr_ok := curr_ok, bad_bounds := s.bad_bounds ++ [cb],
                 curr_bad := none, prev := ev }
    | none => { s with curr_ok := curr_ok, prev := ev }
  else
    let curr_bad := match s.curr_bad with
      | none => some (s.prev, ev)
      | some b => some (b.1, ev)
    match s.curr_ok with
    | some cb =>
        { s with curr_bad := curr_bad, ok_bounds := s.ok_bounds ++ [cb],
                 curr_ok := none, prev := ev }
    | none => { s with curr_bad := curr_bad, prev := ev }

/-- The whole enumerate loop, carrying the running bit index. -/
def evLoop (bitmask : Nat) : Nat → List Int → EvState → EvState
  | _, [], s => s
  | bit, ev :: rest, s => evLoop bitmask (bit + 1) rest (evStep ((bitmask >>> bit) % 2) ev s)

/-- The two `if curr_..._bound is not None` flushes after the loop:
returns `(ok_bounds, bad_bounds)`. -/
def evFinal (s : EvState) : List (Int × Int) × List (Int × Int) :=
  (match s.curr_ok with
   | some b => s.ok_bounds ++ [b]
   | none => s.ok_bounds,
   match s.curr_bad with
   | some b => s.bad_bounds ++ [b]
   | none => s.bad_bounds)

/-- The interval-extraction phase of `get_ev_range_tooltip`. -/
def evBounds (bitmask : Nat) (range_def : List Int) : List (Int × Int) × List (Int × Int) :=
  evFinal (evLoop bitmask 0 range_def initEvState)

/-- Right-justify to width `w` with spaces, as a Python f-string does for
an integer field of explicit width. -/
def rjust (s : String) (w : Nat) : String :=
  String.mk (List.replicate (w - s.length) ' ') ++ s

/-- The rendering phase for one side: compute the two column widths over
the list, then emit one `"<tag> <lo> eV to <hi> eV"` line per interval. -/
def boundLines (tag : String) (bounds : List (Int × Int)) : List String :=
  let left_width := bounds.foldl (fun m p => max m (toString p.1).length) 0
  let right_width := bounds.foldl (fun m p => max m (toString p.2).length) 0
  bounds.map (fun p =>
    tag ++ " " ++ rjust (toString p.1) left_width ++ " eV to "
        ++ rjust (toString p.2) right_width ++ " eV")

/-- `get_ev_range_tooltip(bitmask, range_def)` from tooltips.py: build
the allowed/blocked interval lists, pick a side with
`if not bad_bounds or (ok_bounds and len(ok_bounds) < len(bad_bounds))`,
render the chosen lines and wrap them in a pre block. -/
def get_ev_range_tooltip (bitmask : Nat) (range_def : List Int) : String :=
  let bounds := evBounds bitmask range_def
  let ok_bounds := bounds.1
  let bad_bounds := bounds.2
  let lines :=
    if bad_bounds.isEmpty || (!ok_bounds.isEmpty && ok_bounds.length < bad_bounds.length)
    then boundLines "Allow" ok_bounds
    else boundLines "Block" bad_bounds
  preformatted (String.intercalate "\n" lines)

/-- The enumerate loop only reads the bitmask through the bits at the
indices it visits. -/
lemma evLoop_congr (m m' : Nat) :
    ∀ (bs : List Int) (bit : Nat) (s : EvState),
      (∀ i, i < bs.length → (m >>> (bit + i)) % 2 = (m' >>> (bit + i)) % 2) →
      evLoop m bit bs s = evLoop m' bit bs s := by
  intro bs
  induction bs with
  | nil => intro bit s _; rfl
  | cons ev rest ih =>
    intro bit s h
    have h0 : (m >>> bit) % 2 = (m' >>> bit) % 2 := by
      simpa using h 0 (by simp)
    simp only [evLoop, h0]
    apply ih
    intro i hi
    have := h (i + 1) (by simp; omega)
    simpa [Nat.add_assoc, Nat.add_comm 1 i] using this

/-- Reducing the bitmask modulo `2 ^ len` does not change any bit below
`len`. -/
lemma shift_mod_two_pow (m len i : Nat) (hi : i < len) :
    ((m % 2 ^ len) >>> i) % 2 = (m >>> i) % 2 := by
  have h1 : (m % 2 ^ len).testBit i = m.testBit i := by
    rw [Nat.testBit_mod_two_pow]
    simp [hi]
  rw [Nat.testBit_to_div_mod, Nat.testBit_to_div_mod] at h1
  rw [Nat.shiftRight_eq_div_pow, Nat.shiftRight_eq_div_pow]
  have h2 : m % 2 ^ len / 2 ^ i % 2 = 1 ↔ m / 2 ^ i % 2 = 1 := by
    simpa using h1
  have d1 := Nat.mod_two_eq_zero_or_one (m % 2 ^ len / 2 ^ i)
  have d2 := Nat.mod_two_eq_zero_or_one (m / 2 ^ i)
  omega

/-- The interval lists only depend on the bits of the bitmask below the
number of boundaries. -/
lemma evBounds_mod (m : Nat) (bs : List Int) :
    evBounds m bs = evBounds (m % 2 ^ bs.length) bs := by
  unfold evBounds
  rw [evLoop_congr m (m % 2 ^ bs.length) bs 0 initEvState]
  intro i hi
  rw [Nat.zero_add]
  exact (shift_mod_two_pow m bs.length i hi).symm

/-! ### get_tooltip_for_bc_bitmask -/

/-- The `while bitmask > 0` loop of `get_tooltip_for_bc_bitmask`: collect
the classification ids whose rows the loop adds (`count` is incremented
before the `bitmask % 2` test, so a set bit at the current position adds
the row for `count + 1`). -/
def bc_rows_loop (bitmask count : Nat) : List Nat :=
  if h : bitmask = 0 then []
  else
    (if bitmask % 2 = 1 then [count + 1] else []) ++ bc_rows_loop (bitmask / 2) (count + 1)
termination_by bitmask
decreasing_by exact Nat.div_lt_self (Nat.pos_of_ne_zero h) (by omega)

/-- Modelled from the spec: the classification lookup table
(`bc_header` / `get_table_row` from the external `beamclass_table`
module, which is not part of the two core source files) maps each
classification id to one fixed descriptive row after the shared header.
We therefore record a rendered table as the ordered list of
classification ids whose rows follow the header: `get_table_row(0)` is
always added first, then the ids added by the while loop. -/
def get_tooltip_for_bc_bitmask_rows (bitmask : Nat) : List Nat :=
  0 :: bc_rows_loop bitmask 0

/-- Closed form of the while loop: it emits `count + 1 + k` for every set
bit `k` of the bitmask, in ascending bit order (any bit bound `B` with
`bitmask < 2 ^ B` describes the same list). -/
lemma bc_rows_loop_eq (B : Nat) :
    ∀ m c, m < 2 ^ B →
      bc_rows_loop m c = ((List.range B).filter m.testBit).map (fun k => c + 1 + k) := by
  induction B with
  | zero =>
    intro m c hm
    have hm0 : m = 0 := by simpa using hm
    subst hm0
    rw [bc_rows_loop]
    simp
  | succ B ih =>
    intro m c hm
    by_cases hm0 : m = 0
    · subst hm0
      rw [bc_rows_loop]
      simp [Nat.zero_testBit]
    · rw [bc_rows_loop]
      rw [dif_neg hm0]
      rw [pow_succ] at hm
      have hdiv : m / 2 < 2 ^ B := by omega
      rw [ih (m / 2) (c + 1) hdiv]
      rw [List.range_succ_eq_map, List.filter_cons, List.filter_map]
      have hcomp : (m.testBit ∘ Nat.succ) = (m / 2).testBit := by
        funext k
        simp [Function.comp, Nat.testBit_succ]
      have hfun : ((fun k => c + 1 + k) ∘ Nat.succ) = (fun k => c + 1 + 1 + k) := by
        funext k
        simp [Function.comp]
        omega
      by_cases hb : m % 2 = 1 <;>
        simp [hb, Nat.testBit_zero, hcomp, List.map_map, hfun]

/-! ## preemptive_requests.py -/

/-- A Python value as it appears in the table machinery: the canonical
values produced by the `data_type`/`store_type` callables are ints,
floats and strings. -/
inductive PyVal where
  | int (n : Int)
  | float (q : ℚ)
  | str (s : String)
deriving Repr, DecidableEq

/-- Python `>=` of a table value against an int literal; comparing a str
against an int raises, which never happens for the fixed column types. -/
def pyGe (v : PyVal) (k : Int) : Option Bool :=
  match v with
  | .int n => some (decide (k ≤ n))
  | .float q => some (decide ((k : ℚ) ≤ q))
  | .str _ => none

/-- Python truthiness of a table value (`bool(...)`). -/
def pyTruthy : PyVal → Bool
  | .int n => decide (n ≠ 0)
  | .float q => decide (q ≠ 0)
  | .str s => decide (s ≠ "")

/-- One `PMPSTableWidgetItem` as the filter sees it: `value` is what
`get_value()` returns (the `data_type` parse of the stored text) and
`connected` is the flag maintained by `update_connection`. -/
structure Cell (α : Type) where
  value : α
  connected : Bool
deriving Repr, DecidableEq

/-- One table row: a cell per entry of `item_info_list`, in its order,
with each cell's value in the column's `data_type`
(str, int, int, float, int, int, int). -/
structure Row where
  name : Cell String
  id : Cell Int
  rate : Cell Int
  trans : Cell ℚ
  energy : Cell Int
  cohort : Cell Int
  active : Cell Int
deriving Repr, DecidableEq

/-- The `name` fields of `item_info_list`, in definition order. -/
def item_info_names : List String :=
  ["name", "id", "rate", "trans", "energy", "cohort", "active"]

/-- The row's cells as the `zip(item_info_list, range(2, columnCount))`
loop of `update_filter` visits them: `(info.name, get_value(), connected)`
per column, in `item_info_list` order. -/
def rowItems (r : Row) : List (String × PyVal × Bool) :=
  [("name", .str r.name.value, r.name.connected),
   ("id", .int r.id.value, r.id.connected),
   ("rate", .int r.rate.value, r.rate.connected),
   ("trans", .float r.trans.value, r.trans.connected),
   ("energy", .int r.energy.value, r.energy.connected),
   ("cohort", .int r.cohort.value, r.cohort.connected),
   ("active", .int r.active.value, r.active.connected)]

/-- The gathering loop of `update_filter`: build the `values` dict and
keep the loop variable `item`, of which only the `connected` flag is
used after the loop (`none` when the loop body never ran). -/
def gatherLoop (items : List (String × PyVal × Bool)) :
    List (String × PyVal) × Option Bool :=
  items.foldl (fun acc it => (acc.1 ++ [(it.1, it.2.1)], some it.2.2)) ([], none)

/-- `update_filter` from preemptive_requests.py, as the hide decision:
gather the row's values, compute `full_beam`, `active` and `connected`,
and combine them with the three checkbox states. `none` models a raised
exception (missing dict key or an unsupported comparison), which cannot
happen for rows of the fixed column layout. -/
def update_filter (hide_full_beam hide_inactive hide_disconnected : Bool)
    (r : Row) : Option Bool :=
  let g := gatherLoop (rowItems r)
  let values := g.1
  match values.lookup "rate", values.lookup "trans", values.lookup "energy",
        values.lookup "active", g.2 with
  | some vr, some vt, some ve, some va, some connected =>
    match pyGe vr 120, pyGe vt 1, pyGe ve 32 with
    | some b1, some b2, some b3 =>
      let full_beam := b1 && b2 && b3
      let active := pyTruthy va
      some ((hide_full_beam && full_beam)
        || (hide_inactive && !active)
        || (hide_disconnected && !connected))
    | _, _, _ => none
  | _, _, _, _, _ => none

/-- A row whose `active` cell is connected while every other cell is
disconnected. -/
def rowOthersDown : Row :=
  ⟨⟨"dev", false⟩, ⟨1, false⟩, ⟨0, false⟩, ⟨0, false⟩, ⟨0, false⟩, ⟨0, false⟩, ⟨1, true⟩⟩

/-- A row whose `active` cell is disconnected while every other cell is
connected. -/
def rowActiveDown : Row :=
  ⟨⟨"dev", true⟩, ⟨1, true⟩, ⟨0, true⟩, ⟨0, true⟩, ⟨0, true⟩, ⟨0, true⟩, ⟨1, false⟩⟩

/-! ### setup_requests and display setup -/

/-- Python exceptions that the embedded fragments can raise. -/
inductive PyError where
  | typeError
  | attributeError
deriving Repr, DecidableEq

deriving instance DecidableEq for Except

/-- One entry of the `preemptive_requests` config list, as read with
`req.get(...)`: every key may be absent (`none` models both an absent
key and an explicit `None`). `prefix_` stands for the `prefix` key. -/
structure ReqGroup where
  prefix_ : Option String
  arbiter_instance : Option String
  assertion_pool_start : Option Int
  assertion_pool_end : Option Int
deriving Repr, DecidableEq

/-- The macros dict built for one created row. -/
structure RowEntry where
  index : Nat
  P : Option String
  ARBITER : Option String
  POOL : String
deriving Repr, DecidableEq

/-- Python `range(a, b)` over ints. -/
def pyRange (a b : Int) : List Int :=
  (List.range (b - a).toNat).map (fun i => a + i)

/-- Python `str.zfill(w)`: left-pad with zeros to width `w`, after a
leading minus sign if present. -/
def zfill (s : String) (w : Nat) : String :=
  if w ≤ s.length then s
  else
    let pad := String.mk (List.replicate (w - s.length) '0')
    match s.toList with
    | '-' :: rest => "-" ++ pad ++ String.mk rest
    | '+' :: rest => "+" ++ pad ++ String.mk rest
    | _ => pad ++ s

/-- The body of the `for req in reqs` loop of `setup_requests` for one
config group, given the running row counter: a missing pool bound makes
`range(pool_start, pool_end + 1)` raise a TypeError (`None + 1`, or
`range(None, ...)`); otherwise one row is created per pool id with the
macros dict of the source, and the counter advances per row. -/
def processGroup (count : Nat) (g : ReqGroup) :
    Except PyError (List RowEntry × Nat) :=
  match g.assertion_pool_end with
  | none => .error .typeError
  | some pe =>
    match g.assertion_pool_start with
    | none => .error .typeError
    | some ps =>
      let pool_zfill := (toString pe).length + 1
      let ids := pyRange ps (pe + 1)
      let rows := ids.enum.map (fun p =>
        { index := count + p.1, P := g.prefix_, ARBITER := g.arbiter_instance,
          POOL := zfill (toString p.2) pool_zfill })
      .ok (rows, count + ids.length)

/-- The whole `for req in reqs` loop, threading the row counter. -/
def setupLoop (count : Nat) : List ReqGroup → Except PyError (List RowEntry × Nat)
  | [] => .ok ([], count)
  | g :: rest =>
    match processGroup count g with
    | .error e => .error e
    | .ok (rows, c2) =>
      match setupLoop c2 rest with
      | .error e => .error e
      | .ok (more, c3) => .ok (rows ++ more, c3)

/-- The rows created by `setup_requests` from a config list, with the
final row count. -/
def setup_requests_rows (reqs : List ReqGroup) :
    Except PyError (List RowEntry × Nat) :=
  setupLoop 0 reqs

/-- The macros dict handed to the display, restricted to the key the
core reads. -/
structure MacroConfig where
  preemptive_requests : Option (List ReqGroup)
deriving Repr, DecidableEq

/-- The display state `setup_requests` leaves behind: the created rows,
and `row_count = none` when the attribute assignment
`self.row_count = count` was never reached. -/
structure DisplayState where
  rows : List RowEntry
  row_count : Option Nat
deriving Repr, DecidableEq

/-- `setup_requests`: return early (leaving `row_count` unset) when the
macros dict is falsy or has no truthy `preemptive_requests` entry;
otherwise build the rows and set `row_count`. -/
def setup_requests_model (config : Option MacroConfig) :
    Except PyError DisplayState :=
  match config with
  | none => .ok ⟨[], none⟩
  | some cfg =>
    match cfg.preemptive_requests with
    | none => .ok ⟨[], none⟩
    | some [] => .ok ⟨[], none⟩
    | some reqs =>
      match setup_requests_rows reqs with
      | .error e => .error e
      | .ok (rows, count) => .ok ⟨rows, some count⟩

/-- `update_all_filters` iterates `range(self.row_count)`: reading the
attribute raises an AttributeError when it was never assigned. -/
def update_all_filters_model (st : DisplayState) : Except PyError Unit :=
  match st.row_count with
  | none => .error .attributeError
  | some _ => .ok ()

/-- `setup_ui`: `setup_requests` followed by `setup_sorts_and_filters`,
whose last statement calls `update_all_filters`. -/
def setup_ui_model (config : Option MacroConfig) : Except PyError DisplayState :=
  match setup_requests_model config with
  | .error e => .error e
  | .ok st =>
    match update_all_filters_model st with
    | .error e => .error e
    | .ok _ => .ok st

/-! ### PMPSTableWidgetItem.update_value -/

/-- Python `str(...)` on the canonical table values. The float case
abstracts the repr of a float; no theorem below depends on it. -/
def pyStr : PyVal → String
  | .int n => toString n
  | .float q => toString q
  | .str s => s

/-- One `PMPSTableWidgetItem` as `update_value` mutates it: the hidden
text field (`setText`), the `connected` attribute, and the `store_type`
callable given at construction. The item does not know the name of the
field it belongs to. A decode failure is the raised exception's
message. -/
structure WidgetItem where
  text : String
  connected : Bool
  store_type : PyVal → Except String PyVal

/-- `update_value(value)`: `self.setText(str(self.store_type(value)))`.
`store_type` is evaluated first; if it raises, `setText` is never
reached, the item is left as it was, and the exception propagates to
the caller (the second component). -/
def update_value (item : WidgetItem) (value : PyVal) : WidgetItem × Option String :=
  match item.store_type value with
  | .ok v => ({ item with text := pyStr v }, none)
  | .error e => (item, some e)

/-- A nonempty run of decimal digits, as a number. -/
def digitsToNat : List Char → Option Nat
  | [] => none
  | l =>
    l.foldl
      (fun acc c =>
        match acc with
        | none => none
        | some n => if c.isDigit then some (n * 10 + (c.toNat - 48)) else none)
      (some 0)

/-- A decimal int literal with an optional sign (the core of what Python
`int(str)` accepts). -/
def parseIntLit (s : String) : Option Int :=
  match s.toList with
  | '-' :: rest => (digitsToNat rest).map (fun n => -(n : Int))
  | '+' :: rest => (digitsToNat rest).map (fun n => (n : Int))
  | l => (digitsToNat l).map (fun n => (n : Int))

/-- Python `int(...)` on the canonical values, as the `store_type` of
the `id`/`rate`/`cohort`/`active` columns: parse failure raises a
ValueError whose message names the raw value but nothing else. -/
def python_int (v : PyVal) : Except String PyVal :=
  match v with
  | .int n => .ok (.int n)
  | .float q => .ok (.int (if q < 0 then -((-q).floor) else q.floor))
  | .str s =>
    match parseIntLit s with
    | some n => .ok (.int n)
    | none => .error ("invalid literal for int() with base 10: " ++ s)

/-- The table item of the `rate` column with its default state. -/
def rateItem : WidgetItem := ⟨"0", true, python_int⟩

/-- `sub` occurs somewhere inside `s`. -/
def containsSubstr (s sub : String) : Bool :=
  decide (List.IsInfix sub.toList s.toList)

/-- The side choice of `get_ev_range_tooltip`, stated about the
finished interval lists: the blocked side is rendered exactly when
there is at least one blocked interval and the allowed side is not a
strictly shorter nonempty list. -/
def rendersBlockedSpec (ok bad : List (Int × Int)) : Bool :=
  !bad.isEmpty && (ok.isEmpty || bad.length ≤ ok.length)

/-- The boolean core of the side choice: `empty(bad) or (nonempty(ok)
and |ok| < |bad|)` is the negation of `nonempty(bad) and (empty(ok) or
|bad| <= |ok|)`. -/
lemma choice_bool (oe be : Bool) (ol bl : Nat) :
    (be || (!oe && decide (ol < bl))) = !(!be && (oe || decide (bl ≤ ol))) := by
  cases oe <;> cases be <;> simp [← decide_not, Nat.not_le]

/-- The source's branch condition picks the allowed side exactly when
`rendersBlockedSpec` is false. -/
lemma choice_eq_not_rendersBlockedSpec (ok bad : List (Int × Int)) :
    (bad.isEmpty || (!ok.isEmpty && decide (ok.length < bad.length)))
      = !(rendersBlockedSpec ok bad) := by
  unfold rendersBlockedSpec
  exact choice_bool ok.isEmpty bad.isEmpty ok.length bad.length

/-! ## Claim theorems -/

/-- C1 counterexample: for bitmask 1 over boundaries [5, 10] the allowed
and blocked lists have equal nonzero length (one interval each), and the
code renders the blocked side, not the allowed one as the claim states. -/
theorem C1_counterexample :
    evBounds 1 [5, 10] = ([(0, 5)], [(5, 10)])
      ∧ get_ev_range_tooltip 1 [5, 10] = preformatted "Block 5 eV to 10 eV"
      ∧ get_ev_range_tooltip 1 [5, 10]
          ≠ preformatted (String.intercalate "\n" (boundLines "Allow" [(0, 5)])) := by
  refine ⟨by decide, by decide, by decide⟩

/-- C1 amended: `get_ev_range_tooltip` renders the allowed interval list
iff the blocked list is empty, or the allowed list is nonempty and
strictly shorter than the blocked one; ties of nonzero length and the
empty-allowed case render the blocked side (`rendersBlockedSpec`). -/
theorem C1_choice (bitmask : Nat) (range_def : List Int) :
    get_ev_range_tooltip bitmask range_def
      = preformatted (String.intercalate "\n"
          (if rendersBlockedSpec (evBounds bitmask range_def).1 (evBounds bitmask range_def).2
           then boundLines "Block" (evBounds bitmask range_def).2
           else boundLines "Allow" (evBounds bitmask range_def).1)) := by
  simp only [get_ev_range_tooltip]
  rw [choice_eq_not_rendersBlockedSpec]
  cases hb : rendersBlockedSpec (evBounds bitmask range_def).1 (evBounds bitmask range_def).2 <;>
    simp [hb]

/-- C2 counterexample: for bitmask 0 over boundaries [5, 10] the output
is not the empty preformatted block the claim predicts. -/
theorem C2_counterexample :
    get_ev_range_tooltip 0 [5, 10] ≠ preformatted "" := by decide

/-- C2 amended: bitmask 0 over boundaries [5, 10] yields zero allowed
intervals and the single blocked interval (0, 10); the blocked side is
rendered, giving the preformatted line "Block 0 eV to 10 eV". -/
theorem C2_all_blocked :
    evBounds 0 [5, 10] = ([], [(0, 10)])
      ∧ get_ev_range_tooltip 0 [5, 10] = preformatted "Block 0 eV to 10 eV" := by
  refine ⟨by decide, by decide⟩

/-- C3: bitmask 0b0110 over boundaries [10, 20, 30, 40] merges the two
allowed bands into (10, 30), leaves blocked [(0, 10), (30, 40)], and the
allowed side is rendered as the line "Allow 10 eV to 30 eV". -/
theorem C3_merge_scenario :
    evBounds 6 [10, 20, 30, 40] = ([(10, 30)], [(0, 10), (30, 40)])
      ∧ get_ev_range_tooltip 6 [10, 20, 30, 40] = preformatted "Allow 10 eV to 30 eV" := by
  refine ⟨by decide, by decide⟩

/-- C6: the summarizer processes one band per boundary and ignores every
bit of the bitmask at or above the number of boundaries: the output only
depends on the bitmask modulo 2 ^ length. Being a total function, it
returns normally on every input. -/
theorem C6_high_bits_ignored (bitmask : Nat) (range_def : List Int) :
    get_ev_range_tooltip bitmask range_def
      = get_ev_range_tooltip (bitmask % 2 ^ range_def.length) range_def := by
  unfold get_ev_range_tooltip
  rw [evBounds_mod bitmask range_def]

/-- C10: the beam-class bitmask tooltip adds the baseline row for
classification 0 first, then one row per set bit k of the bitmask, for
classification k + 1, in ascending bit order; bitmask 0b101 gives
exactly the rows 0, 1, 3 in that order. -/
theorem C10_bc_bitmask_rows :
    (∀ bitmask : Nat,
        get_tooltip_for_bc_bitmask_rows bitmask
          = 0 :: ((List.range bitmask).filter bitmask.testBit).map (fun k => k + 1))
      ∧ get_tooltip_for_bc_bitmask_rows 5 = [0, 1, 3] := by
  have main : ∀ bitmask : Nat,
      get_tooltip_for_bc_bitmask_rows bitmask
        = 0 :: ((List.range bitmask).filter bitmask.testBit).map (fun k => k + 1) := by
    intro m
    unfold get_tooltip_for_bc_bitmask_rows
    rw [bc_rows_loop_eq m m 0 (Nat.lt_two_pow m)]
    have hf : (fun k => 0 + 1 + k) = (fun k : Nat => k + 1) := by
      funext k
      omega
    rw [hf]
  refine ⟨main, ?_⟩
  rw [main 5]
  decide

/-- C4: update_filter hides a row exactly when (hide_full_beam and
full_beam) or (hide_inactive and not active) or (hide_disconnected and
not connected), with full_beam := rate >= 120 and trans >= 1 and
energy >= 32, active the truthiness of the active cell, and connected
the last-gathered cell's flag; and a row with rate 120, trans 1,
energy 32 is hidden whenever hide_full_beam is set, whatever all its
other cells hold. -/
theorem C4_update_filter_formula :
    (∀ (hide_full_beam hide_inactive hide_disconnected : Bool) (r : Row),
        update_filter hide_full_beam hide_inactive hide_disconnected r
          = some ((hide_full_beam
                && (decide (r.rate.value ≥ 120) && decide (r.trans.value ≥ 1)
                    && decide (r.energy.value ≥ 32)))
              || (hide_inactive && !decide (r.active.value ≠ 0))
              || (hide_disconnected && !r.active.connected)))
      ∧ (∀ (hide_inactive hide_disconnected : Bool) (nm : Cell String)
          (idc cohc actc : Cell Int) (c3 c4 c5 : Bool),
          update_filter true hide_inactive hide_disconnected
            ⟨nm, idc, ⟨120, c3⟩, ⟨1, c4⟩, ⟨32, c5⟩, cohc, actc⟩ = some true) := by
  constructor
  · intro hide_full_beam hide_inactive hide_disconnected r
    rfl
  · intro hide_inactive hide_disconnected nm idc cohc actc c3 c4 c5
    rfl

/-- C5: the connectivity used by update_filter is the connected flag of
the cell of the field gathered last, which is the final entry of
item_info_list, the active column: the gathering loop ends with the
active cell's flag, the iteration order is item_info_names whose last
element is "active", and connectivity is no aggregate: with only the
disconnected-filter active, a row is shown when every cell except
active is disconnected, and hidden when only the active cell is
disconnected. -/
theorem C5_connected_from_last_field :
    (∀ r : Row, (gatherLoop (rowItems r)).2 = some r.active.connected)
      ∧ (∀ r : Row, (rowItems r).map (fun it => it.1) = item_info_names)
      ∧ item_info_names.getLast? = some "active"
      ∧ update_filter false false true rowOthersDown = some false
      ∧ update_filter false false true rowActiveDown = some true := by
  refine ⟨fun r => rfl, fun r => rfl, rfl, by decide, by decide⟩

/-- A group with an empty pool range contributes no rows and leaves the
row counter unchanged. -/
lemma processGroup_empty_range (count : Nat) (p a : Option String) (s e : Int)
    (he : e < s) :
    processGroup count ⟨p, a, some s, some e⟩ = .ok ([], count) := by
  unfold processGroup
  have h0 : (e + 1 - s).toNat = 0 := by omega
  have hr : pyRange s (e + 1) = [] := by
    unfold pyRange
    rw [h0]
    rfl
  simp [hr]

/-- Dropping a group with an empty pool range from anywhere in the
config list leaves the whole build unchanged. -/
lemma setupLoop_skip (p a : Option String) (s e : Int) (he : e < s) :
    ∀ (r1 : List ReqGroup) (c : Nat) (r2 : List ReqGroup),
      setupLoop c (r1 ++ ⟨p, a, some s, some e⟩ :: r2) = setupLoop c (r1 ++ r2) := by
  intro r1
  induction r1 with
  | nil =>
    intro c r2
    show setupLoop c (⟨p, a, some s, some e⟩ :: r2) = setupLoop c r2
    simp only [setupLoop, processGroup_empty_range c p a s e he]
    cases hres : setupLoop c r2 with
    | error err => rfl
    | ok pr => simp
  | cons g1 rest ih =>
    intro c r2
    simp only [List.cons_append, setupLoop]
    cases processGroup c g1 with
    | error err => rfl
    | ok pr =>
      obtain ⟨rows, c2⟩ := pr
      dsimp only
      simp only [List.append_eq]
      rw [ih c2 r2]

/-- C7 amended: a group whose assertion_pool_start exceeds its
assertion_pool_end (both keys present) yields zero rows and the rest of
the table is built exactly as if the group were absent. -/
theorem C7_empty_pool_range_skipped (r1 r2 : List ReqGroup) (p a : Option String)
    (s e : Int) (he : e < s) :
    setup_requests_rows (r1 ++ ⟨p, a, some s, some e⟩ :: r2)
      = setup_requests_rows (r1 ++ r2) := by
  unfold setup_requests_rows
  exact setupLoop_skip p a s e he r1 0 r2

/-- Witness for C7: dropping the concrete reversed-range group after one
good group leaves the build unchanged. -/
theorem C7_empty_pool_range_skipped_witness :
    setup_requests_rows [⟨some "PLC:", some "Arb1", some 0, some 1⟩,
        ⟨some "X", some "A", some 5, some 3⟩]
      = setup_requests_rows [⟨some "PLC:", some "Arb1", some 0, some 1⟩] :=
  C7_empty_pool_range_skipped [⟨some "PLC:", some "Arb1", some 0, some 1⟩] []
    (some "X") (some "A") 5 3 (by norm_num)

/-- C7 counterexample: a group missing the assertion_pool_start key does
not contribute zero rows and let the build continue; it raises a
TypeError that fails the whole build, although the same list without
that group builds two rows. -/
theorem C7_counterexample :
    setup_requests_rows [⟨some "PLC:", some "Arb1", some 0, some 1⟩,
        ⟨some "X", some "ARB", none, some 5⟩]
      = .error .typeError
      ∧ setup_requests_rows [⟨some "PLC:", some "Arb1", some 0, some 1⟩]
          = .ok ([⟨0, some "PLC:", some "Arb1", "00"⟩,
                  ⟨1, some "PLC:", some "Arb1", "01"⟩], 2) :=
  ⟨rfl, by decide⟩

/-- C8: with no macros dict, or no preemptive_requests entry,
setup_requests itself returns early with an empty table and no error,
but the display setup as a whole then raises an AttributeError, because
update_all_filters reads the row_count attribute that the early return
never assigned. -/
theorem C8_missing_config_attribute_error :
    setup_requests_model none = .ok ⟨[], none⟩
      ∧ setup_requests_model (some ⟨none⟩) = .ok ⟨[], none⟩
      ∧ setup_ui_model none = .error .attributeError
      ∧ setup_ui_model (some ⟨none⟩) = .error .attributeError :=
  ⟨rfl, rfl, rfl, rfl⟩

/-- C9 amended: when store_type raises on a delivered value, update_value
propagates that same exception and the item - its stored text and its
connected flag - is left exactly as it was. -/
theorem C9_decode_failure_propagates (item : WidgetItem) (value : PyVal) (e : String)
    (h : item.store_type value = .error e) :
    update_value item value = (item, some e) := by
  unfold update_value
  rw [h]

/-- Witness for C9: the rate column's int decode fails on the string
"abc" and update_value returns the unchanged item with the propagated
ValueError message. -/
theorem C9_decode_failure_propagates_witness :
    update_value rateItem (.str "abc")
      = (rateItem, some ("invalid literal for int() with base 10: " ++ "abc")) :=
  C9_decode_failure_propagates rateItem (.str "abc")
    ("invalid literal for int() with base 10: " ++ "abc") rfl

/-- C9 counterexample: the exception propagated for the rate cell on raw
value "abc" is the decoder's own ValueError message; it names the raw
value but the cell's field name "rate" occurs nowhere in it, so it is
not an error carrying the field name as the claim states. -/
theorem C9_counterexample :
    update_value rateItem (.str "abc")
      = (rateItem, some ("invalid literal for int() with base 10: " ++ "abc"))
      ∧ containsSubstr ("invalid literal for int() with base 10: " ++ "abc") "rate" = false :=
  ⟨rfl, by decide⟩
